import Mathlib

/-!
Verification development for the Panchanga calculator (`app.py`).

The astronomical/calendrical engine of the application is embedded shallowly:

* exact arithmetic (Julian-day conversion, the panchanga index derivations,
  the weekday computation) is modelled over `ℚ`, or generically over a
  `LinearOrderedField` with a `FloorRing` instance so that the same
  definitions serve both exact evaluation and statements over `ℝ`;
* the trigonometric chain (solar/lunar longitude series, the sunrise/sunset
  solver, the transition solver) is modelled over `ℝ` with `Real.sin`,
  `Real.cos` and `Real.tan`;
* Python's `math.acos`, which raises `ValueError` when its argument lies
  outside `[-1, 1]`, is modelled by an `Except` result;
* Python's `%` on a positive right operand (both for floats and ints) is
  `x - y * ⌊x / y⌋`, and Python's `int(...)` truncates toward zero.
-/

namespace Panchanga

/-- Python `x % y` for a positive divisor `y` (used by the source on floats):
the representative of `x` modulo `y` lying in `[0, y)`. -/
def pymod {α : Type} [LinearOrderedField α] [FloorRing α] (x y : α) : α :=
  x - y * ⌊x / y⌋

/-- Python `int(x)`: truncation toward zero. -/
def pyint (q : ℚ) : ℤ :=
  if 0 ≤ q then ⌊q⌋ else -⌊-q⌋

/-- Source `mod360`: `(x % 360 + 360) % 360`. -/
def mod360 {α : Type} [LinearOrderedField α] [FloorRing α] (x : α) : α :=
  pymod (pymod x 360 + 360) 360

/-- Default used for (never reached) out-of-range name-table lookups. -/
def defaultName : String := ""

/-- Source: `tithi_decimal = long_diff / 12; tithi_index = floor(tithi_decimal);
if tithi_index == 0: tithi_index = 30 else: tithi_index += 1`. -/
def tithi_index {α : Type} [LinearOrderedField α] [FloorRing α] (long_diff : α) : ℤ :=
  let t := ⌊long_diff / 12⌋
  if t = 0 then 30 else t + 1

/-- Source: `paksha = "Shukla Paksha" if tithi_index <= 15 else "Krishna Paksha"`
(the emoji decoration of the display string is presentation and is omitted). -/
def paksha (tithi_index : ℤ) : String :=
  if tithi_index ≤ 15 then "Shukla Paksha" else "Krishna Paksha"

/-- Source: `nak_index = floor(nirayana_moon / (360 / 27)) + 1`. -/
def nak_index {α : Type} [LinearOrderedField α] [FloorRing α] (nirayana_moon : α) : ℤ :=
  ⌊nirayana_moon / (360 / 27)⌋ + 1

/-- Source: `nak_pos = nirayana_moon - (nak_index - 1) * (360 / 27)`. -/
def nak_pos {α : Type} [LinearOrderedField α] [FloorRing α] (nirayana_moon : α) : α :=
  nirayana_moon - ((nak_index nirayana_moon : α) - 1) * (360 / 27)

/-- Source: `pada = floor(nak_pos / (360 / 108)) + 1`. -/
def pada {α : Type} [LinearOrderedField α] [FloorRing α] (nirayana_moon : α) : ℤ :=
  ⌊nak_pos nirayana_moon / (360 / 108)⌋ + 1

/-- Source: `yoga_index = floor((nirayana_sun + nirayana_moon) / (360 / 27)) % 27 + 1`. -/
def yoga_index {α : Type} [LinearOrderedField α] [FloorRing α]
    (nirayana_sun nirayana_moon : α) : ℤ :=
  ⌊(nirayana_sun + nirayana_moon) / (360 / 27)⌋ % 27 + 1

/-- Source: `karana_index = floor(long_diff / 6) % 60 + 1`. -/
def karana_index {α : Type} [LinearOrderedField α] [FloorRing α] (long_diff : α) : ℤ :=
  ⌊long_diff / 6⌋ % 60 + 1

/-- Source movable-karana table. -/
def movable : List String :=
  ["Bava", "Balava", "Kaulava", "Taitila", "Gara", "Vanija", "Vishti"]

/-- Source name selection for the karana: indices 1, 58, 59, 60 are the four
fixed karanas and every other index reads the movable table at
`(karana_index - 2) % 7`. -/
def karana_name (karana_index : ℤ) : String :=
  if karana_index = 1 then "Kimstughna"
  else if karana_index = 58 then "Shakuni"
  else if karana_index = 59 then "Chatushpada"
  else if karana_index = 60 then "Naga"
  else movable.getD ((karana_index - 2) % 7).toNat defaultName

/-- Source: `wd = floor(jd + 1.5) % 7`. -/
def wd {α : Type} [LinearOrderedField α] [FloorRing α] (jd : α) : ℤ :=
  ⌊jd + 1.5⌋ % 7

/-- Source weekday name table (emoji decoration omitted). -/
def vaara_names : List String :=
  ["Ravivaara", "Somavaara", "Mangalavaara", "Budhavaara", "Guruvaara",
   "Shukravaara", "Shanivaara"]

/-- Source: `vaara_str = vaara_names[wd]`. -/
def vaara_str {α : Type} [LinearOrderedField α] [FloorRing α] (jd : α) : String :=
  vaara_names.getD (wd jd).toNat defaultName

/-- The Python float remainder with a positive divisor is nonnegative. -/
theorem pymod_nonneg {α : Type} [LinearOrderedField α] [FloorRing α]
    (x : α) {y : α} (hy : 0 < y) : 0 ≤ pymod x y := by
  have hfr : pymod x y = y * Int.fract (x / y) := by
    unfold pymod Int.fract
    field_simp
  rw [hfr]
  exact mul_nonneg hy.le (Int.fract_nonneg _)

/-- The Python float remainder with a positive divisor is below the divisor. -/
theorem pymod_lt {α : Type} [LinearOrderedField α] [FloorRing α]
    (x : α) {y : α} (hy : 0 < y) : pymod x y < y := by
  have hfr : pymod x y = y * Int.fract (x / y) := by
    unfold pymod Int.fract
    field_simp
  rw [hfr]
  calc y * Int.fract (x / y) < y * 1 :=
        (mul_lt_mul_left hy).mpr (Int.fract_lt_one _)
    _ = y := mul_one y

theorem mod360_nonneg {α : Type} [LinearOrderedField α] [FloorRing α] (x : α) :
    0 ≤ mod360 x :=
  pymod_nonneg _ (by norm_num)

theorem mod360_lt {α : Type} [LinearOrderedField α] [FloorRing α] (x : α) :
    mod360 x < 360 :=
  pymod_lt _ (by norm_num)

/-- The floor of `x / c` for `x` in `[0, n*c)` lies in `[0, n)`. -/
theorem floor_div_range {α : Type} [LinearOrderedField α] [FloorRing α]
    {x c : α} {n : ℤ} (h0 : 0 ≤ x) (h1 : x < n * c) (hc : 0 < c) :
    0 ≤ ⌊x / c⌋ ∧ ⌊x / c⌋ < n := by
  constructor
  · exact Int.le_floor.mpr (by exact_mod_cast div_nonneg h0 hc.le)
  · exact Int.floor_lt.mpr (by rw [div_lt_iff₀ hc]; exact h1)

theorem tithi_index_range {α : Type} [LinearOrderedField α] [FloorRing α]
    {D : α} (h0 : 0 ≤ D) (h1 : D < 360) :
    1 ≤ tithi_index D ∧ tithi_index D ≤ 30 := by
  have hf : 0 ≤ ⌊D / 12⌋ ∧ ⌊D / 12⌋ < 30 :=
    floor_div_range h0 (by norm_num; linarith) (by norm_num)
  have hti : tithi_index D = if ⌊D / 12⌋ = 0 then 30 else ⌊D / 12⌋ + 1 := rfl
  rw [hti]
  constructor <;> (split <;> omega)

theorem karana_index_range {α : Type} [LinearOrderedField α] [FloorRing α]
    (D : α) : 1 ≤ karana_index D ∧ karana_index D ≤ 60 := by
  unfold karana_index
  have h1 := Int.emod_nonneg ⌊D / 6⌋ (by norm_num : (60:ℤ) ≠ 0)
  have h2 := Int.emod_lt_of_pos ⌊D / 6⌋ (by norm_num : (0:ℤ) < 60)
  omega

theorem nak_pos_range {α : Type} [LinearOrderedField α] [FloorRing α]
    (M : α) : 0 ≤ nak_pos M ∧ nak_pos M < 360 / 27 := by
  have hrw : nak_pos M = M - ⌊M / (360 / 27)⌋ * (360 / 27) := by
    unfold nak_pos nak_index
    push_cast
    ring
  rw [hrw]
  constructor
  · exact Int.sub_floor_div_mul_nonneg M (by norm_num)
  · exact Int.sub_floor_div_mul_lt M (by norm_num)

/-- C1: for every pair of sidereal longitudes `S, M` in `[0, 360)` with
`D = mod360 (M - S)`, the tithi index equals `⌊D/12⌋ + 1` except that a floor
result of exactly `0` wraps to index `30` (not an invalid value); the index
lies in `1..30`, and indices `1..15` are classified Shukla Paksha while
`16..30` are Krishna Paksha. -/
theorem C1_tithi_formula_paksha {α : Type} [LinearOrderedField α] [FloorRing α]
    (S M D : α) (hS0 : 0 ≤ S) (hS1 : S < 360) (hM0 : 0 ≤ M) (hM1 : M < 360)
    (hD : D = mod360 (M - S)) :
    (⌊D / 12⌋ = 0 → tithi_index D = 30) ∧
    (⌊D / 12⌋ ≠ 0 → tithi_index D = ⌊D / 12⌋ + 1) ∧
    1 ≤ tithi_index D ∧ tithi_index D ≤ 30 ∧
    (tithi_index D ≤ 15 → paksha (tithi_index D) = "Shukla Paksha") ∧
    (16 ≤ tithi_index D → paksha (tithi_index D) = "Krishna Paksha") := by
  have h0 : 0 ≤ D := hD ▸ mod360_nonneg _
  have h1 : D < 360 := hD ▸ mod360_lt _
  have hrange := tithi_index_range h0 h1
  have hti : tithi_index D = if ⌊D / 12⌋ = 0 then 30 else ⌊D / 12⌋ + 1 := rfl
  refine ⟨?_, ?_, hrange.1, hrange.2, ?_, ?_⟩
  · intro h
    rw [hti, if_pos h]
  · intro h
    rw [hti, if_neg h]
  · intro h
    unfold paksha
    rw [if_pos h]
  · intro h
    unfold paksha
    rw [if_neg (by omega)]

theorem C1_tithi_formula_paksha_witness :
    ((0:ℚ) ≤ 0 ∧ (0:ℚ) < 360) ∧
    ((⌊mod360 ((0:ℚ) - 0) / 12⌋ = 0 → tithi_index (mod360 ((0:ℚ) - 0)) = 30) ∧
     (⌊mod360 ((0:ℚ) - 0) / 12⌋ ≠ 0 →
       tithi_index (mod360 ((0:ℚ) - 0)) = ⌊mod360 ((0:ℚ) - 0) / 12⌋ + 1) ∧
     1 ≤ tithi_index (mod360 ((0:ℚ) - 0)) ∧
     tithi_index (mod360 ((0:ℚ) - 0)) ≤ 30 ∧
     (tithi_index (mod360 ((0:ℚ) - 0)) ≤ 15 →
       paksha (tithi_index (mod360 ((0:ℚ) - 0))) = "Shukla Paksha") ∧
     (16 ≤ tithi_index (mod360 ((0:ℚ) - 0)) →
       paksha (tithi_index (mod360 ((0:ℚ) - 0))) = "Krishna Paksha")) :=
  ⟨⟨by decide, by decide⟩,
   C1_tithi_formula_paksha 0 0 (mod360 (0 - 0))
     (by decide) (by decide) (by decide) (by decide) rfl⟩

/-- C3: for every `D` in `[0, 360)` the karana index equals
`⌊D/6⌋ % 60 + 1`; indices 1, 58, 59, 60 name Kimstughna, Shakuni,
Chatushpada and Naga respectively, and every other index in `1..60` names
the movable karana at position `(index - 2) % 7` in the seven-entry table. -/
theorem C3_karana_naming {α : Type} [LinearOrderedField α] [FloorRing α]
    (D : α) (h0 : 0 ≤ D) (h1 : D < 360) :
    karana_index D = ⌊D / 6⌋ % 60 + 1 ∧
    1 ≤ karana_index D ∧ karana_index D ≤ 60 ∧
    karana_name 1 = "Kimstughna" ∧
    karana_name 58 = "Shakuni" ∧
    karana_name 59 = "Chatushpada" ∧
    karana_name 60 = "Naga" ∧
    (∀ i : ℤ, 1 ≤ i → i ≤ 60 → i ≠ 1 → i ≠ 58 → i ≠ 59 → i ≠ 60 →
      karana_name i = movable.getD ((i - 2) % 7).toNat defaultName) := by
  have hrange := karana_index_range D
  refine ⟨rfl, hrange.1, hrange.2, rfl, rfl, rfl, rfl, ?_⟩
  intro i _ _ hi1 hi58 hi59 hi60
  unfold karana_name
  rw [if_neg hi1, if_neg hi58, if_neg hi59, if_neg hi60]

theorem C3_karana_naming_witness :
    ((0:ℚ) ≤ 100 ∧ (100:ℚ) < 360) ∧
    (karana_index (100:ℚ) = ⌊(100:ℚ) / 6⌋ % 60 + 1 ∧
     1 ≤ karana_index (100:ℚ) ∧ karana_index (100:ℚ) ≤ 60 ∧
     karana_name 1 = "Kimstughna" ∧
     karana_name 58 = "Shakuni" ∧
     karana_name 59 = "Chatushpada" ∧
     karana_name 60 = "Naga" ∧
     (∀ i : ℤ, 1 ≤ i → i ≤ 60 → i ≠ 1 → i ≠ 58 → i ≠ 59 → i ≠ 60 →
       karana_name i = movable.getD ((i - 2) % 7).toNat defaultName)) :=
  ⟨⟨by decide, by decide⟩, C3_karana_naming 100 (by decide) (by decide)⟩

/-- C8: for every pair of sidereal sun/moon longitudes in `[0, 360)`, the
tithi index is in `[1, 30]`, the karana index in `[1, 60]`, the nakshatra
index in `[1, 27]`, the yoga index in `[1, 27]` and the pada in `[1, 4]`. -/
theorem C8_index_ranges {α : Type} [LinearOrderedField α] [FloorRing α]
    (S M : α) (hS0 : 0 ≤ S) (hS1 : S < 360) (hM0 : 0 ≤ M) (hM1 : M < 360) :
    (1 ≤ tithi_index (mod360 (M - S)) ∧ tithi_index (mod360 (M - S)) ≤ 30) ∧
    (1 ≤ karana_index (mod360 (M - S)) ∧ karana_index (mod360 (M - S)) ≤ 60) ∧
    (1 ≤ nak_index M ∧ nak_index M ≤ 27) ∧
    (1 ≤ yoga_index S M ∧ yoga_index S M ≤ 27) ∧
    (1 ≤ pada M ∧ pada M ≤ 4) := by
  refine ⟨tithi_index_range (mod360_nonneg _) (mod360_lt _),
    karana_index_range _, ?_, ?_, ?_⟩
  · have hf : 0 ≤ ⌊M / (360 / 27)⌋ ∧ ⌊M / (360 / 27)⌋ < 27 :=
      floor_div_range hM0 (by norm_num; linarith) (by norm_num)
    unfold nak_index
    omega
  · unfold yoga_index
    have h1 := Int.emod_nonneg ⌊(S + M) / (360 / 27)⌋ (by norm_num : (27:ℤ) ≠ 0)
    have h2 := Int.emod_lt_of_pos ⌊(S + M) / (360 / 27)⌋ (by norm_num : (0:ℤ) < 27)
    omega
  · have hnp := nak_pos_range M
    have hf : 0 ≤ ⌊nak_pos M / (360 / 108)⌋ ∧ ⌊nak_pos M / (360 / 108)⌋ < 4 :=
      floor_div_range hnp.1 (by norm_num; linarith [hnp.2]) (by norm_num)
    unfold pada
    omega

theorem C8_index_ranges_witness :
    (((0:ℚ) ≤ 0 ∧ (0:ℚ) < 360) ∧ ((0:ℚ) ≤ 100 ∧ (100:ℚ) < 360)) ∧
    ((1 ≤ tithi_index (mod360 ((100:ℚ) - 0)) ∧
        tithi_index (mod360 ((100:ℚ) - 0)) ≤ 30) ∧
     (1 ≤ karana_index (mod360 ((100:ℚ) - 0)) ∧
        karana_index (mod360 ((100:ℚ) - 0)) ≤ 60) ∧
     (1 ≤ nak_index (100:ℚ) ∧ nak_index (100:ℚ) ≤ 27) ∧
     (1 ≤ yoga_index (0:ℚ) (100:ℚ) ∧ yoga_index (0:ℚ) (100:ℚ) ≤ 27) ∧
     (1 ≤ pada (100:ℚ) ∧ pada (100:ℚ) ≤ 4)) :=
  ⟨⟨⟨by decide, by decide⟩, ⟨by decide, by decide⟩⟩,
   C8_index_ranges 0 100 (by decide) (by decide) (by decide) (by decide)⟩

/-- C9: the weekday index is `⌊jd + 1.5⌋ % 7`, mapped through the fixed
seven-entry name table, and it is periodic with period 7 in the Julian day:
`vaara(jd + 7) = vaara(jd)` for every `jd`. -/
theorem C9_vaara_period {α : Type} [LinearOrderedField α] [FloorRing α]
    (jd : α) :
    wd jd = ⌊jd + 1.5⌋ % 7 ∧
    0 ≤ wd jd ∧ wd jd < 7 ∧
    vaara_str jd = vaara_names.getD (wd jd).toNat defaultName ∧
    wd (jd + 7) = wd jd ∧
    vaara_str (jd + 7) = vaara_str jd := by
  have hshift : ⌊jd + 7 + 1.5⌋ = ⌊jd + 1.5⌋ + 7 := by
    have h : jd + 7 + 1.5 = jd + 1.5 + ((7:ℤ) : α) := by
      push_cast
      ring
    rw [h, Int.floor_add_int]
  have hwd : wd (jd + 7) = wd jd := by
    unfold wd
    rw [hshift]
    omega
  have h1 := Int.emod_nonneg ⌊jd + 1.5⌋ (by norm_num : (7:ℤ) ≠ 0)
  have h2 := Int.emod_lt_of_pos ⌊jd + 1.5⌋ (by norm_num : (0:ℤ) < 7)
  exact ⟨rfl, h1, h2, rfl, hwd, by unfold vaara_str; rw [hwd]⟩

/-- Source `sin_d`: sine of an angle given in degrees. -/
noncomputable def sin_d (x : ℝ) : ℝ := Real.sin (x * Real.pi / 180)

/-- Source `cos_d`: cosine of an angle given in degrees. -/
noncomputable def cos_d (x : ℝ) : ℝ := Real.cos (x * Real.pi / 180)

/-- Source `get_sun_long`: low-order solar apparent ecliptic longitude series,
`d` in days since J2000.0. -/
noncomputable def get_sun_long (d : ℝ) : ℝ :=
  let T := d / 36525.0
  let M := mod360 (357.52910 + 35999.05030 * T - 0.0001559 * T ^ 2 -
    0.00000048 * T ^ 3)
  let L0 := mod360 (280.46645 + 36000.76983 * T + 0.0003032 * T ^ 2)
  let DL := (1.914600 - 0.004817 * T - 0.000014 * T ^ 2) * sin_d M +
    (0.019993 - 0.000101 * T) * sin_d (2 * M) + 0.000290 * sin_d (3 * M)
  mod360 (L0 + DL)

/-- Source `get_moon_long`: truncated lunar ecliptic longitude series,
`d` in days since J2000.0. -/
noncomputable def get_moon_long (d : ℝ) : ℝ :=
  let T := d / 36525.0
  let L0 := mod360 (218.31617 + 481267.88088 * T)
  let M := mod360 (134.96292 + 477198.86753 * T)
  let Msun := mod360 (357.52543 + 35999.04944 * T)
  let F := mod360 (93.27283 + 483202.01873 * T)
  let D := mod360 (297.85027 + 445267.11135 * T)
  let pert := 22640 * sin_d M + 769 * sin_d (2 * M) - 4586 * sin_d (M - 2 * D) +
    2370 * sin_d (2 * D) - 668 * sin_d Msun - 412 * sin_d (2 * F) -
    125 * sin_d D - 212 * sin_d (2 * M - 2 * D) -
    206 * sin_d (M + Msun - 2 * D) + 192 * sin_d (M + 2 * D) -
    165 * sin_d (Msun - 2 * D) + 148 * sin_d (L0 - Msun) -
    110 * sin_d (M + Msun) - 55 * sin_d (2 * F - 2 * D)
  mod360 (L0 + pert / 3600.0)

/-- Source `get_ayanamsa`: a single affine ayanamsa formula, `d` in days
since J2000.0; the source takes no school argument. -/
noncomputable def get_ayanamsa (d : ℝ) : ℝ :=
  23.853 + (d / 365.25) * (50.2388 / 3600)

/-- Modelled from the spec: the spec's contract `ayanamsaDegrees(JulianDay,
school)` with a school selector among Lahiri, Fagan/Bradley and Raman.  The
source has no such selector anywhere, so the only behaviour the application
can exhibit for any selected school is the source's single `get_ayanamsa`
formula. -/
inductive School where
  | Lahiri
  | FaganBradley
  | Raman

/-- Modelled from the spec: the school-selectable ayanamsa entry point.  The
source computes `get_ayanamsa(d)` with no school parameter, so every school
maps to the same formula (`d` in days since J2000.0, as in the source). -/
noncomputable def ayanamsaDegrees (_school : School) (d : ℝ) : ℝ :=
  get_ayanamsa d

/-- C4 counterexample: the claim asserts a distinct offset and a distinct
rate per school; but the values for Lahiri, Fagan/Bradley and Raman coincide
at `d = 0` (the offset) and at `d = 36525` (hence the rate too), at which
concrete inputs the claim is false. -/
theorem C4_counterexample_same_for_all_schools :
    ayanamsaDegrees School.Lahiri 0 = ayanamsaDegrees School.Raman 0 ∧
    ayanamsaDegrees School.Lahiri 0 = ayanamsaDegrees School.FaganBradley 0 ∧
    ayanamsaDegrees School.Lahiri 36525 = ayanamsaDegrees School.Raman 36525 ∧
    ayanamsaDegrees School.Lahiri 36525 =
      ayanamsaDegrees School.FaganBradley 36525 :=
  ⟨rfl, rfl, rfl, rfl⟩

/-- C4 amended: the ayanamsa computation takes no school selector; for every
school choice it returns the same affine-in-time value with offset `23.853`
degrees and rate `50.2388/3600` degrees per `365.25` days. -/
theorem C4_amended_single_affine_ayanamsa :
    ∀ (school : School) (d : ℝ),
      ayanamsaDegrees school d = 23.853 + (50.2388 / (3600 * 365.25)) * d := by
  intro school d
  unfold ayanamsaDegrees get_ayanamsa
  ring

/-- Source `long_diff_at_jd`: sidereal moon-sun separation at a Julian day. -/
noncomputable def long_diff_at_jd (jd : ℝ) : ℝ :=
  let d := jd - 2451545.0
  let sun_l := get_sun_long d
  let moon_l := get_moon_long d
  let ay := get_ayanamsa d
  let n_sun := mod360 (sun_l - ay)
  let n_moon := mod360 (moon_l - ay)
  mod360 (n_moon - n_sun)

/-- Source `find_transition_between`, loop body: the 60-iteration bisection
on the wrapped residual `(long_diff_at_jd(x) - target + 540) % 360 - 180`,
written with the remaining iteration count as an explicit argument. -/
noncomputable def findTransitionGo (target_angle tol_minutes : ℝ) :
    ℕ → ℝ → ℝ → ℝ → ℝ → ℝ
  | 0, a, b, _, _ => (a + b) / 2
  | n + 1, a, b, fa, fb =>
    let mid := (a + b) / 2
    let fm := pymod (long_diff_at_jd mid - target_angle + 540) 360 - 180
    if |fm| < 1e-6 then mid
    else if fa * fm ≤ 0 then
      if (mid - a) * 24 * 60 < tol_minutes then (a + mid) / 2
      else findTransitionGo target_angle tol_minutes n a mid fa fm
    else
      if (b - mid) * 24 * 60 < tol_minutes then (mid + b) / 2
      else findTransitionGo target_angle tol_minutes n mid b fm fb

/-- Source `find_transition_between`: bisection for the Julian day at which
the moon-sun sidereal separation crosses `target_angle`, with the source's
pre-loop early returns and a cap of 60 iterations. -/
noncomputable def find_transition_between (jd_start jd_end target_angle : ℝ)
    (tol_minutes : ℝ) : ℝ :=
  let a := jd_start
  let b := jd_end
  let fa := pymod (long_diff_at_jd a - target_angle + 540) 360 - 180
  let fb := pymod (long_diff_at_jd b - target_angle + 540) 360 - 180
  if |fa| < 1e-9 then a
  else if |fb| < 1e-9 then b
  else findTransitionGo target_angle tol_minutes 60 a b fa fb

theorem findTransitionGo_mem {target tol : ℝ} :
    ∀ (n : ℕ) {a b : ℝ} (fa fb : ℝ), a ≤ b →
      a ≤ findTransitionGo target tol n a b fa fb ∧
        findTransitionGo target tol n a b fa fb ≤ b := by
  intro n
  induction n with
  | zero =>
    intro a b fa fb hab
    constructor <;> (simp only [findTransitionGo]; linarith)
  | succ n ih =>
    intro a b fa fb hab
    have hmid : a ≤ (a + b) / 2 ∧ (a + b) / 2 ≤ b := by
      constructor <;> linarith
    simp only [findTransitionGo]
    split
    · exact hmid
    · split
      · split
        · constructor <;> linarith [hmid.1]
        · have h := @ih a ((a + b) / 2) fa
            (pymod (long_diff_at_jd ((a + b) / 2) - target + 540) 360 - 180)
            hmid.1
          exact ⟨h.1, h.2.trans hmid.2⟩
      · split
        · constructor <;> linarith [hmid.2]
        · have h := @ih ((a + b) / 2) b
            (pymod (long_diff_at_jd ((a + b) / 2) - target + 540) 360 - 180)
            fb hmid.2
          exact ⟨hmid.1.trans h.1, h.2⟩

/-- C7: for every bracket `jd_start ≤ jd_end` and every target angle, the
transition solver (whose loop is capped at 60 bisection iterations by
construction) returns a Julian day inside `[jd_start, jd_end]`, and when the
iteration budget is exhausted it returns the midpoint of the current bracket
instead of failing. -/
theorem C7_transition_solver_bracket (jd_start jd_end target_angle : ℝ)
    (hab : jd_start ≤ jd_end) :
    jd_start ≤ find_transition_between jd_start jd_end target_angle 0.5 ∧
    find_transition_between jd_start jd_end target_angle 0.5 ≤ jd_end ∧
    (∀ fa fb : ℝ, findTransitionGo target_angle 0.5 0 jd_start jd_end fa fb =
      (jd_start + jd_end) / 2) := by
  refine ⟨?_, ?_, fun fa fb => rfl⟩ <;>
  · simp only [find_transition_between]
    split
    · linarith
    · split
      · linarith
      · first
        | exact (findTransitionGo_mem 60 _ _ hab).1
        | exact (findTransitionGo_mem 60 _ _ hab).2

/-- Source `find_kalashtami_window`, loop: scan the day offsets upward,
bracketing each candidate day by `[jd0 - 1, jd0 + 1]` for the 264-degree
entry and `[jd0 - 1, jd0 + 2]` for the 276-degree exit.  The source guards
each candidate pair by Python truthiness (`s_candidate and e_candidate and
e_candidate > s_candidate`), so a pair is returned only when both values are
nonzero and the exit lies strictly after the entry.  The source's
`try/except` is dead in this model because the bisection is total.  The
remaining number of offsets to try is an explicit argument. -/
noncomputable def kalashtamiGo (start_jd : ℝ) : ℕ → ℕ → Option (ℝ × ℝ)
  | _, 0 => none
  | offset, fuel + 1 =>
    let jd0 := start_jd + offset
    let s_candidate := find_transition_between (jd0 - 1) (jd0 + 1) 264.0 0.5
    let e_candidate := find_transition_between (jd0 - 1) (jd0 + 2) 276.0 0.5
    if s_candidate ≠ 0 ∧ e_candidate ≠ 0 ∧ s_candidate < e_candidate then
      some (s_candidate, e_candidate)
    else kalashtamiGo start_jd (offset + 1) fuel

/-- Source `find_kalashtami_window`: day offsets `0 .. search_days`
inclusive; `none` models the source's `(None, None)` not-found result. -/
noncomputable def find_kalashtami_window (start_jd : ℝ)
    (search_days : ℕ) : Option (ℝ × ℝ) :=
  kalashtamiGo start_jd 0 (search_days + 1)

theorem kalashtamiGo_sound (start_jd : ℝ) :
    ∀ (fuel offset : ℕ),
      (kalashtamiGo start_jd offset fuel).elim True (fun p =>
        p.1 < p.2 ∧ ∃ k : ℕ, offset ≤ k ∧ k < offset + fuel ∧
          p.1 = find_transition_between (start_jd + k - 1) (start_jd + k + 1)
            264.0 0.5 ∧
          p.2 = find_transition_between (start_jd + k - 1) (start_jd + k + 2)
            276.0 0.5) := by
  intro fuel
  induction fuel with
  | zero =>
    intro offset
    simp [kalashtamiGo]
  | succ n ih =>
    intro offset
    simp only [kalashtamiGo]
    split
    · next hcond =>
      exact ⟨hcond.2.2, offset, le_refl offset, by omega, rfl, rfl⟩
    · have h := ih (offset + 1)
      revert h
      cases kalashtamiGo start_jd (offset + 1) n with
      | none => simp
      | some p =>
        simp only [Option.elim_some]
        rintro ⟨hlt, k, hk1, hk2, hs, he⟩
        exact ⟨hlt, k, by omega, by omega, hs, he⟩

/-- C6: for every starting Julian day and search horizon, the Kalashtami
window search is total (the model needs no exception path): it returns
either `none` (the source's recoverable "not found within the horizon"
result) or a pair `(s, e)` with `s < e` obtained from the bisection solver
targeting 264 and 276 degrees over the day-by-day forward scan's
`[day - 1, day + 1]` and `[day - 1, day + 2]` brackets for some day offset
within the horizon. -/
theorem C6_kalashtami_window_total (start_jd : ℝ) (search_days : ℕ) :
    (find_kalashtami_window start_jd search_days).elim True (fun p =>
      p.1 < p.2 ∧ ∃ k : ℕ, k ≤ search_days ∧
        p.1 = find_transition_between (start_jd + k - 1) (start_jd + k + 1)
          264.0 0.5 ∧
        p.2 = find_transition_between (start_jd + k - 1) (start_jd + k + 2)
          276.0 0.5) := by
  have h := kalashtamiGo_sound start_jd (search_days + 1) 0
  unfold find_kalashtami_window
  revert h
  cases kalashtamiGo start_jd 0 (search_days + 1) with
  | none => simp
  | some p =>
    simp only [Option.elim_some]
    rintro ⟨hlt, k, _, hk2, hs, he⟩
    exact ⟨hlt, k, by omega, hs, he⟩

theorem C7_transition_solver_bracket_witness :
    (0:ℝ) ≤ 1 ∧
    ((0:ℝ) ≤ find_transition_between 0 1 264 0.5 ∧
     find_transition_between 0 1 264 0.5 ≤ 1 ∧
     (∀ fa fb : ℝ, findTransitionGo 264 0.5 0 0 1 fa fb = (0 + 1) / 2)) :=
  ⟨zero_le_one, C7_transition_solver_bracket 0 1 264 zero_le_one⟩

/-- Source `is_leap_year`. -/
def is_leap_year (year : ℤ) : Bool :=
  if year % 4 ≠ 0 then false
  else if year % 100 ≠ 0 then true
  else year % 400 == 0

/-- Source month-length table `days` of `day_of_year` (index 0 unused). -/
def days_table : List ℤ :=
  [0, 31, 28, 31, 30, 31, 30, 31, 31, 30, 31, 30, 31]

/-- Source `day_of_year`: `sum(days[1:month]) + day`, plus one after
February in a leap year. -/
def day_of_year (year month day : ℤ) : ℤ :=
  let dy := ((days_table.take month.toNat).drop 1).sum + day
  if 2 < month ∧ is_leap_year year then dy + 1 else dy

/-- Python's `ValueError`, raised by `math.acos` on an argument outside
`[-1, 1]`; modelled as the error branch of an `Except` result. -/
inductive PyError where
  | valueError

/-- Source `get_sunrise_sunset`, line `gamma = ...`: the day-of-year phase
angle (the source's `(12 - 12) / 24` noon term is kept as written). -/
noncomputable def sunGamma (year month day : ℤ) : ℝ :=
  let dy := day_of_year year month day
  let days_in_year : ℝ := if is_leap_year year then 366 else 365
  2 * Real.pi / days_in_year * ((dy : ℝ) - 1 + (12 - 12) / 24)

/-- Source `get_sunrise_sunset`, line `eqtime = ...`. -/
noncomputable def sunEqtime (year month day : ℤ) : ℝ :=
  let gamma := sunGamma year month day
  229.18 * (0.000075 + 0.001868 * Real.cos gamma - 0.032077 * Real.sin gamma -
    0.014615 * Real.cos (2 * gamma) - 0.040849 * Real.sin (2 * gamma))

/-- Source `get_sunrise_sunset`, line `decl = ...`: solar declination in
radians from the day-of-year Fourier series. -/
noncomputable def sunDecl (year month day : ℤ) : ℝ :=
  let gamma := sunGamma year month day
  0.006918 - 0.399912 * Real.cos gamma + 0.070257 * Real.sin gamma -
    0.006758 * Real.cos (2 * gamma) + 0.000907 * Real.sin (2 * gamma) -
    0.002697 * Real.cos (3 * gamma) + 0.00148 * Real.sin (3 * gamma)

/-- Source `get_sunrise_sunset`, the argument passed to `math.acos` in the
line `ha = math.acos(cos_zen / (cos_d(lat) * cos_d(decl_deg)) -
math.tan(lat * pi / 180) * math.tan(decl_deg * pi / 180))`. -/
noncomputable def sunriseAcosArg (year month day : ℤ) (lat : ℝ) : ℝ :=
  let decl_deg := sunDecl year month day * 180 / Real.pi
  let cos_zen := Real.cos (90.833 * Real.pi / 180)
  cos_zen / (cos_d lat * cos_d decl_deg) -
    Real.tan (lat * Real.pi / 180) * Real.tan (decl_deg * Real.pi / 180)

/-- Source `get_sunrise_sunset`:  the whole computation depends on the date
only through `day_of_year` and `is_leap_year`; Python's `math.acos` raises
`ValueError` on an argument outside `[-1, 1]`, modelled as `Except.error`. -/
noncomputable def get_sunrise_sunset (year month day : ℤ)
    (lat long timezone : ℝ) : Except PyError (ℝ × ℝ × ℝ × ℝ) :=
  if sunriseAcosArg year month day lat < -1 ∨
      1 < sunriseAcosArg year month day lat then
    Except.error PyError.valueError
  else
    let eqtime := sunEqtime year month day
    let decl_deg := sunDecl year month day * 180 / Real.pi
    let ha := Real.arccos (sunriseAcosArg year month day lat) * 180 / Real.pi
    let sunrise_utc_min := 720 - 4 * (long + ha) - eqtime
    let sunset_utc_min := 720 - 4 * (long - ha) - eqtime
    let sunrise_local := pymod (sunrise_utc_min / 60 + timezone) 24
    let sunset_local := pymod (sunset_utc_min / 60 + timezone) 24
    Except.ok (sunrise_local, sunset_local, eqtime, decl_deg)

theorem cos_x402_bounds :
    0.91 ≤ Real.cos 0.402449 ∧ Real.cos 0.402449 ≤ 0.93 := by
  have habs : |(0.402449:ℝ)| = 0.402449 := abs_of_pos (by norm_num)
  have h := Real.cos_bound (show |(0.402449 : ℝ)| ≤ 1 from by rw [habs]; norm_num)
  rw [habs] at h
  have h2 := abs_le.mp h
  have e2 : (0.402449:ℝ) ^ 2 ≤ 0.162 := by norm_num
  have e2l : (0.1619:ℝ) ≤ 0.402449 ^ 2 := by norm_num
  have e4 : (0.402449:ℝ) ^ 4 ≤ 0.0263 := by norm_num
  constructor <;> linarith [h2.1, h2.2]

theorem sin_x402_lb : 0.39 ≤ Real.sin 0.402449 := by
  have habs : |(0.402449:ℝ)| = 0.402449 := abs_of_pos (by norm_num)
  have h := Real.sin_bound (show |(0.402449 : ℝ)| ≤ 1 from by rw [habs]; norm_num)
  rw [habs] at h
  have h2 := abs_le.mp h
  have e3 : (0.402449:ℝ) ^ 3 ≤ 0.0652 := by norm_num
  have e4 : (0.402449:ℝ) ^ 4 ≤ 0.0263 := by norm_num
  linarith [h2.1, h2.2]

theorem sin_pi18_bounds :
    0.17 ≤ Real.sin (Real.pi / 18) ∧ Real.sin (Real.pi / 18) ≤ 0.18 := by
  have hpi1 := Real.pi_gt_d6
  have hpi2 := Real.pi_lt_d6
  have hu0 : (0:ℝ) < Real.pi / 18 := by linarith
  have hu1 : (0.1745:ℝ) < Real.pi / 18 := by linarith
  have hu2 : Real.pi / 18 < 0.1746 := by linarith
  have habs : |Real.pi / 18| = Real.pi / 18 := abs_of_pos hu0
  have h := Real.sin_bound (show |Real.pi / 18| ≤ 1 from by rw [habs]; linarith)
  rw [habs] at h
  have h2 := abs_le.mp h
  have hu3 : (Real.pi / 18) ^ 3 ≤ 0.1746 ^ 3 := pow_le_pow_left hu0.le hu2.le 3
  have hu4 : (Real.pi / 18) ^ 4 ≤ 0.1746 ^ 4 := pow_le_pow_left hu0.le hu2.le 4
  have c3 : (0.1746:ℝ) ^ 3 ≤ 0.005323 := by norm_num
  have c4 : (0.1746:ℝ) ^ 4 ≤ 0.00093 := by norm_num
  constructor
  · linarith [h2.1]
  · have := Real.sin_lt hu0
    linarith

theorem cos_pi18_lb : 0.98 ≤ Real.cos (Real.pi / 18) := by
  have hpi1 := Real.pi_gt_d6
  have hpi2 := Real.pi_lt_d6
  have hu0 : (0:ℝ) < Real.pi / 18 := by linarith
  have hu2 : Real.pi / 18 < 0.1746 := by linarith
  have habs : |Real.pi / 18| = Real.pi / 18 := abs_of_pos hu0
  have h := Real.cos_bound (show |Real.pi / 18| ≤ 1 from by rw [habs]; linarith)
  rw [habs] at h
  have h2 := abs_le.mp h
  have hu2sq : (Real.pi / 18) ^ 2 ≤ 0.1746 ^ 2 := pow_le_pow_left hu0.le hu2.le 2
  have hu4 : (Real.pi / 18) ^ 4 ≤ 0.1746 ^ 4 := pow_le_pow_left hu0.le hu2.le 4
  have c2 : (0.1746:ℝ) ^ 2 ≤ 0.0305 := by norm_num
  have c4 : (0.1746:ℝ) ^ 4 ≤ 0.00093 := by norm_num
  linarith [h2.1]

theorem sin_q833_ub : Real.sin (0.833 * Real.pi / 180) ≤ 0.0146 := by
  have hpi2 := Real.pi_lt_d6
  have hpi1 := Real.pi_gt_d6
  have hq0 : (0:ℝ) < 0.833 * Real.pi / 180 := by linarith
  have hq2 : 0.833 * Real.pi / 180 < 0.0146 := by linarith
  linarith [Real.sin_lt hq0]

/-- The final arithmetic step of the polar-night counterexample: with the
stated bounds on the five trigonometric values, the `acos` argument exceeds
one. -/
theorem acos_arg_lower (sq s18 c18 sx cx : ℝ)
    (hsq : sq ≤ 0.0146) (hs18l : 0.17 ≤ s18) (hs18u : s18 ≤ 0.18)
    (hc18 : 0.98 ≤ c18) (hsx : 0.39 ≤ sx)
    (hcxl : 0.91 ≤ cx) (hcxu : cx ≤ 0.93) :
    1 < -sq / (s18 * cx) - c18 / s18 * -(sx / cx) := by
  have hs18p : (0:ℝ) < s18 := by linarith
  have hcxp : (0:ℝ) < cx := by linarith
  have hden : 0 < s18 * cx := mul_pos hs18p hcxp
  have heq : -sq / (s18 * cx) - c18 / s18 * -(sx / cx) =
      (c18 * sx - sq) / (s18 * cx) := by
    field_simp
    ring
  rw [heq, lt_div_iff hden]
  have h1 : s18 * cx ≤ 0.18 * 0.93 :=
    mul_le_mul hs18u hcxu hcxp.le (by norm_num)
  have h2 : (0.98:ℝ) * 0.39 ≤ c18 * sx :=
    mul_le_mul hc18 hsx (by norm_num) (by linarith)
  nlinarith

theorem sunrise_acos_arg_gt_one : 1 < sunriseAcosArg 2023 1 1 80 := by
  have hdy : day_of_year 2023 1 1 = 1 := by decide
  have hleap : is_leap_year 2023 = false := by decide
  have hgamma : sunGamma 2023 1 1 = 0 := by
    unfold sunGamma
    rw [hdy, hleap]
    norm_num
  have hdecl : sunDecl 2023 1 1 = -0.402449 := by
    unfold sunDecl
    rw [hgamma]
    norm_num [Real.cos_zero, Real.sin_zero]
  simp only [sunriseAcosArg, cos_d]
  rw [hdecl]
  have e1 : (-0.402449:ℝ) * 180 / Real.pi * Real.pi / 180 = -0.402449 := by
    field_simp
    ring
  rw [e1, Real.cos_neg, Real.tan_neg]
  rw [show (80:ℝ) * Real.pi / 180 = Real.pi / 2 - Real.pi / 18 from by ring]
  rw [show (90.833:ℝ) * Real.pi / 180 = Real.pi / 2 + 0.833 * Real.pi / 180
      from by ring]
  rw [show Real.cos (Real.pi / 2 + 0.833 * Real.pi / 180) =
      -Real.sin (0.833 * Real.pi / 180) from by
    rw [Real.cos_add, Real.cos_pi_div_two, Real.sin_pi_div_two]; ring]
  rw [Real.cos_pi_div_two_sub]
  rw [Real.tan_eq_sin_div_cos (Real.pi / 2 - Real.pi / 18),
    Real.sin_pi_div_two_sub, Real.cos_pi_div_two_sub]
  rw [Real.tan_eq_sin_div_cos 0.402449]
  exact acos_arg_lower _ _ _ _ _ sin_q833_ub sin_pi18_bounds.1
    sin_pi18_bounds.2 cos_pi18_lb sin_x402_lb cos_x402_bounds.1
    cos_x402_bounds.2

/-- C2 (code bug evaluation): on 1 January 2023 at latitude 80 degrees north
(a polar-night configuration) the argument handed to `math.acos` exceeds 1,
so the source raises an uncaught `ValueError` (here: `Except.error`) instead
of signalling a distinct polar-event result; the source has no polar-event
variant at all. -/
theorem C2_polar_night_raises_value_error :
    get_sunrise_sunset 2023 1 1 80 0 0 = Except.error PyError.valueError := by
  unfold get_sunrise_sunset
  rw [if_pos (Or.inr sunrise_acos_arg_gt_one)]

/-- C10: the sunrise/sunset computation depends on its date arguments only
through the day-of-year (and the year's leap flag, which fixes the length of
the year used by the Fourier phase), besides latitude, longitude and the UTC
offset; in particular it is a pure function of `(year, month, day, lat, lon,
offset)` with no time-of-day input, so equal inputs give identical results. -/
theorem C10_sunrise_depends_only_on_day_of_year
    (y1 m1 d1 y2 m2 d2 : ℤ) (lat long timezone : ℝ)
    (hdy : day_of_year y1 m1 d1 = day_of_year y2 m2 d2)
    (hleap : is_leap_year y1 = is_leap_year y2) :
    get_sunrise_sunset y1 m1 d1 lat long timezone =
      get_sunrise_sunset y2 m2 d2 lat long timezone := by
  have hgamma : sunGamma y1 m1 d1 = sunGamma y2 m2 d2 := by
    unfold sunGamma
    rw [hdy, hleap]
  have heq : sunEqtime y1 m1 d1 = sunEqtime y2 m2 d2 := by
    unfold sunEqtime
    rw [hgamma]
  have hdecl : sunDecl y1 m1 d1 = sunDecl y2 m2 d2 := by
    unfold sunDecl
    rw [hgamma]
  have harg : sunriseAcosArg y1 m1 d1 lat = sunriseAcosArg y2 m2 d2 lat := by
    unfold sunriseAcosArg
    rw [hdecl]
  unfold get_sunrise_sunset
  rw [harg, heq, hdecl]

theorem C10_sunrise_depends_only_on_day_of_year_witness :
    (day_of_year 2019 1 10 = day_of_year 2018 1 10 ∧
      is_leap_year 2019 = is_leap_year 2018) ∧
    get_sunrise_sunset 2019 1 10 13.32 75.77 5.5 =
      get_sunrise_sunset 2018 1 10 13.32 75.77 5.5 :=
  ⟨⟨by decide, by decide⟩,
   C10_sunrise_depends_only_on_day_of_year 2019 1 10 2018 1 10 13.32 75.77 5.5
     (by decide) (by decide)⟩

/-- Source `greg_to_jd`: the Gregorian-calendar-to-Julian-Day algorithm,
with January/February shifted into the preceding year as months 13/14. -/
def greg_to_jd (year month day : ℤ) (ut_hour ut_min ut_sec : ℚ) : ℚ :=
  let y := if month ≤ 2 then year - 1 else year
  let m := if month ≤ 2 then month + 12 else month
  let a : ℤ := ⌊(y : ℚ) / 100⌋
  let b : ℤ := ⌊(a : ℚ) / 4⌋
  let c : ℤ := 2 - a + b
  let e : ℤ := ⌊(365.25 : ℚ) * ((y : ℚ) + 4716)⌋
  let f : ℤ := ⌊(30.6001 : ℚ) * ((m : ℚ) + 1)⌋
  (c : ℚ) + (day : ℚ) + (e : ℚ) + (f : ℚ) - 1524.5 +
    (ut_hour + ut_min / 60 + ut_sec / 3600) / 24

/-- Source `jd_to_datetime_utc`: the inverse Julian-day-to-calendar
algorithm; the `datetime(...)` constructed at the end is modelled as the
tuple (year, month, day, hour, minute, second). -/
def jd_to_datetime_utc (jd0 : ℚ) : ℤ × ℤ × ℤ × ℤ × ℤ × ℤ :=
  let jd := jd0 + 0.5
  let Z : ℤ := pyint jd
  let F : ℚ := jd - (Z : ℚ)
  let A : ℤ :=
    if Z < 2299161 then Z
    else
      let alpha : ℤ := pyint (((Z : ℚ) - 1867216.25) / 36524.25)
      Z + 1 + alpha - pyint ((alpha : ℚ) / 4)
  let B : ℤ := A + 1524
  let C : ℤ := pyint (((B : ℚ) - 122.1) / 365.25)
  let D : ℤ := pyint ((365.25 : ℚ) * (C : ℚ))
  let E : ℤ := pyint (((B : ℚ) - (D : ℚ)) / 30.6001)
  let day : ℚ := (B : ℚ) - (D : ℚ) - (pyint ((30.6001 : ℚ) * (E : ℚ)) : ℚ) + F
  let month : ℤ := if E < 14 then E - 1 else E - 13
  let year : ℤ := if 2 < month then C - 4716 else C - 4715
  let day_floor : ℤ := pyint day
  let day_frac : ℚ := day - (day_floor : ℚ)
  let hour : ℤ := pyint (day_frac * 24)
  let minute : ℤ := pyint ((day_frac * 24 - (hour : ℚ)) * 60)
  let second : ℤ :=
    pyint (((day_frac * 24 - (hour : ℚ)) * 60 - (minute : ℚ)) * 60)
  (year, month, day_floor, hour, minute, second)

theorem floor_intCast_div (n : ℤ) (den : ℕ) :
    ⌊(n : ℚ) / (den : ℚ)⌋ = n / (den : ℤ) := by
  have h := Rat.floor_intCast_div_natCast n den
  exact_mod_cast h

theorem pyint_eq_div (num : ℤ) (den : ℕ) (q : ℚ)
    (hq : q = (num : ℚ) / (den : ℚ)) (hnum : 0 ≤ num) :
    pyint q = num / den := by
  subst hq
  have hpos : (0:ℚ) ≤ (num : ℚ) / (den : ℚ) :=
    div_nonneg (by exact_mod_cast hnum) (by positivity)
  unfold pyint
  rw [if_pos hpos, floor_intCast_div]

/-- Integer mirror of the date part of `greg_to_jd`: the integer Julian-day
number `N` with `greg_to_jd = N - 0.5 + time/24`. -/
def gregToN (year month day : ℤ) : ℤ :=
  let y := if month ≤ 2 then year - 1 else year
  let m := if month ≤ 2 then month + 12 else month
  let a := y / 100
  let b := a / 4
  let c := 2 - a + b
  let e := (1461 * (y + 4716)) / 4
  let f := (306001 * (m + 1)) / 10000
  c + day + e + f - 1524

theorem greg_to_jd_eq (y m d : ℤ) (h mi s : ℚ) :
    greg_to_jd y m d h mi s =
      (gregToN y m d : ℚ) - 0.5 + (h + mi / 60 + s / 3600) / 24 := by
  simp only [greg_to_jd, gregToN]
  have e100 : ∀ n : ℤ, ⌊(n : ℚ) / 100⌋ = n / 100 := fun n => by
    have := floor_intCast_div n 100
    norm_num at this ⊢
    exact this
  have e4 : ∀ n : ℤ, ⌊(n : ℚ) / 4⌋ = n / 4 := fun n => by
    have := floor_intCast_div n 4
    norm_num at this ⊢
    exact this
  have e365 : ∀ n : ℤ,
      ⌊(365.25 : ℚ) * ((n : ℚ) + 4716)⌋ = 1461 * (n + 4716) / 4 := fun n => by
    rw [show (365.25 : ℚ) * ((n : ℚ) + 4716) =
        ((1461 * (n + 4716) : ℤ) : ℚ) / ((4:ℕ) : ℚ) by push_cast; ring]
    exact floor_intCast_div _ 4
  have e30 : ∀ n : ℤ,
      ⌊(30.6001 : ℚ) * ((n : ℚ) + 1)⌋ = 306001 * (n + 1) / 10000 := fun n => by
    rw [show (30.6001 : ℚ) * ((n : ℚ) + 1) =
        ((306001 * (n + 1) : ℤ) : ℚ) / ((10000:ℕ) : ℚ) by push_cast; ring]
    exact floor_intCast_div _ 10000
  split <;>
  · rw [e100, e4, e365, e30]
    push_cast
    ring

/-- Integer mirror of the `alpha` step of `jd_to_datetime_utc`. -/
def calAlpha (Z : ℤ) : ℤ := (4 * Z - 7468865) / 146097

/-- Integer mirror of the `A` step of `jd_to_datetime_utc`. -/
def calA (Z : ℤ) : ℤ :=
  if Z < 2299161 then Z else Z + 1 + calAlpha Z - calAlpha Z / 4

/-- Integer mirror of the `B` step of `jd_to_datetime_utc`. -/
def calB (Z : ℤ) : ℤ := calA Z + 1524

/-- Integer mirror of the `C` step of `jd_to_datetime_utc`. -/
def calC (Z : ℤ) : ℤ := (20 * calB Z - 2442) / 7305

/-- Integer mirror of the `D` step of `jd_to_datetime_utc`. -/
def calD (Z : ℤ) : ℤ := 1461 * calC Z / 4

/-- Integer mirror of the `E` step of `jd_to_datetime_utc`. -/
def calE (Z : ℤ) : ℤ := 10000 * (calB Z - calD Z) / 306001

/-- Integer mirror of the day component of `jd_to_datetime_utc`. -/
def calDay (Z : ℤ) : ℤ := calB Z - calD Z - 306001 * calE Z / 10000

/-- Integer mirror of the month component of `jd_to_datetime_utc`. -/
def calMonth (Z : ℤ) : ℤ := if calE Z < 14 then calE Z - 1 else calE Z - 13

/-- Integer mirror of the year component of `jd_to_datetime_utc`. -/
def calYear (Z : ℤ) : ℤ :=
  if 2 < calMonth Z then calC Z - 4716 else calC Z - 4715

/-- Integer mirror of the date part of `jd_to_datetime_utc`. -/
def calFromZ (Z : ℤ) : ℤ × ℤ × ℤ := (calYear Z, calMonth Z, calDay Z)

theorem pyint_intCast_add (n : ℤ) (t : ℚ) (ht0 : 0 ≤ t) (ht1 : t < 1)
    (hn : 0 ≤ n) : pyint ((n : ℚ) + t) = n := by
  unfold pyint
  rw [if_pos (by positivity)]
  rw [show (n : ℚ) + t = t + (n : ℚ) from by ring, Int.floor_add_int,
    Int.floor_eq_zero_iff.mpr ⟨ht0, ht1⟩]
  omega

/-- The rational inverse computation agrees with the integer mirror on
inputs of the form `N - 0.5 + t`. -/
theorem jd_inverse (N : ℤ) (t : ℚ) (y m d : ℤ) (ht0 : 0 ≤ t) (ht1 : t < 1)
    (hN : 2299161 ≤ N) (hcal : calFromZ N = (y, m, d)) (hd : 1 ≤ d) :
    jd_to_datetime_utc ((N : ℚ) - 0.5 + t) =
      (y, m, d, pyint (t * 24),
       pyint ((t * 24 - (pyint (t * 24) : ℚ)) * 60),
       pyint (((t * 24 - (pyint (t * 24) : ℚ)) * 60 -
         (pyint ((t * 24 - (pyint (t * 24) : ℚ)) * 60) : ℚ)) * 60)) := by
  have hnlt : ¬ N < 2299161 := by omega
  have hb0 : 0 ≤ calAlpha N := by unfold calAlpha; omega
  have hbA : calA N = N + 1 + calAlpha N - calAlpha N / 4 := by
    unfold calA; rw [if_neg hnlt]
  have hbA2 : N ≤ calA N := by omega
  have hbB : 2300685 ≤ calB N := by unfold calB; omega
  have hbC : 6000 ≤ calC N := by unfold calC; omega
  have hbBD : 123 ≤ calB N - calD N ∧ calB N - calD N ≤ 489 := by
    unfold calD calC; omega
  have hbE : 0 ≤ calE N ∧ calE N ≤ 15 := by unfold calE; omega
  have hday : calDay N = d := by
    have := congrArg (fun p => p.2.2) hcal
    simpa [calFromZ] using this
  have hmonth : calMonth N = m := by
    have := congrArg (fun p => p.2.1) hcal
    simpa [calFromZ] using this
  have hyear : calYear N = y := by
    have := congrArg (fun p => p.1) hcal
    simpa [calFromZ] using this
  have h1 : pyint (((N : ℚ) - 1867216.25) / 36524.25) = calAlpha N := by
    unfold calAlpha
    exact pyint_eq_div (4 * N - 7468865) 146097 _ (by push_cast; ring)
      (by omega)
  have h2 : pyint ((calAlpha N : ℚ) / 4) = calAlpha N / 4 := by
    refine pyint_eq_div (calAlpha N) 4 _ (by push_cast; norm_num) (by omega)
  have h3 : pyint (((calB N : ℚ) - 122.1) / 365.25) = calC N := by
    unfold calC
    exact pyint_eq_div (20 * calB N - 2442) 7305 _ (by push_cast; ring)
      (by omega)
  have h4 : pyint ((365.25 : ℚ) * (calC N : ℚ)) = calD N := by
    unfold calD
    exact pyint_eq_div (1461 * calC N) 4 _ (by push_cast; ring) (by omega)
  have h5 : pyint (((calB N : ℚ) - (calD N : ℚ)) / 30.6001) = calE N := by
    unfold calE
    exact pyint_eq_div (10000 * (calB N - calD N)) 306001 _
      (by push_cast; ring) (by omega)
  have h6 : pyint ((30.6001 : ℚ) * (calE N : ℚ)) =
      306001 * calE N / 10000 := by
    exact pyint_eq_div (306001 * calE N) 10000 _ (by push_cast; ring)
      (by omega)
  simp only [jd_to_datetime_utc]
  rw [show (N : ℚ) - 0.5 + t + 0.5 = (N : ℚ) + t from by ring]
  rw [pyint_intCast_add N t ht0 ht1 (by omega)]
  rw [show (N : ℚ) + t - (N : ℚ) = t from by ring]
  rw [if_neg hnlt, h1, h2, ← hbA]
  rw [show calA N + 1524 = calB N from rfl]
  rw [h3, h4, h5, h6]
  rw [show (calB N : ℚ) - (calD N : ℚ) -
      ((306001 * calE N / 10000 : ℤ) : ℚ) + t = (calDay N : ℚ) + t from by
    unfold calDay; push_cast; ring]
  rw [pyint_intCast_add (calDay N) t ht0 ht1 (by omega)]
  rw [show (calDay N : ℚ) + t - (calDay N : ℚ) = t from by ring]
  rw [show (if calE N < 14 then calE N - 1 else calE N - 13) = calMonth N
      from rfl]
  rw [show (if 2 < calMonth N then calC N - 4716 else calC N - 4715) =
      calYear N from rfl]
  rw [hyear, hmonth, hday]

/-- Natural-number mirror of `calAlpha`, for fast kernel evaluation. -/
def natAlpha (Z : ℕ) : ℕ := (4 * Z - 7468865) / 146097

/-- Natural-number mirror of `calA` on the Gregorian branch. -/
def natA (Z : ℕ) : ℕ := Z + 1 + natAlpha Z - natAlpha Z / 4

/-- Natural-number mirror of `calB`. -/
def natB (Z : ℕ) : ℕ := natA Z + 1524

/-- Natural-number mirror of `calC`. -/
def natC (Z : ℕ) : ℕ := (20 * natB Z - 2442) / 7305

/-- Natural-number mirror of `calD`. -/
def natD (Z : ℕ) : ℕ := 1461 * natC Z / 4

/-- Natural-number mirror of `calE`. -/
def natE (Z : ℕ) : ℕ := 10000 * (natB Z - natD Z) / 306001

/-- Natural-number mirror of `calDay`. -/
def natDay (Z : ℕ) : ℕ := natB Z - natD Z - 306001 * natE Z / 10000

/-- Natural-number mirror of `calMonth`. -/
def natMonth (Z : ℕ) : ℕ := if natE Z < 14 then natE Z - 1 else natE Z - 13

/-- Natural-number mirror of `calYear`. -/
def natYear (Z : ℕ) : ℕ :=
  if 2 < natMonth Z then natC Z - 4716 else natC Z - 4715

/-- Natural-number mirror of `calFromZ`. -/
def natCalFromZ (Z : ℕ) : ℕ × ℕ × ℕ := (natYear Z, natMonth Z, natDay Z)

/-- Natural-number mirror of the shifted year of `greg_to_jd`. -/
def natYY (y m : ℕ) : ℕ := if m ≤ 2 then y - 1 else y

/-- Natural-number mirror of the shifted month of `greg_to_jd`. -/
def natMM (m : ℕ) : ℕ := if m ≤ 2 then m + 12 else m

/-- Natural-number mirror of `gregToN`. -/
def natGregToN (y m d : ℕ) : ℕ :=
  let a := natYY y m / 100
  let e := 1461 * (natYY y m + 4716) / 4
  let f := 306001 * (natMM m + 1) / 10000
  e + f + d + 2 + a / 4 - a - 1524

theorem natAlpha_cast (Z : ℕ) (hZ : 2299161 ≤ Z) :
    calAlpha (Z : ℤ) = ((natAlpha Z : ℕ) : ℤ) := by
  unfold calAlpha natAlpha
  omega

theorem natA_cast (Z : ℕ) (hZ : 2299161 ≤ Z) :
    calA (Z : ℤ) = ((natA Z : ℕ) : ℤ) := by
  unfold calA natA
  rw [if_neg (by omega), natAlpha_cast Z hZ]
  omega

theorem natB_cast (Z : ℕ) (hZ : 2299161 ≤ Z) :
    calB (Z : ℤ) = ((natB Z : ℕ) : ℤ) := by
  unfold calB natB
  rw [natA_cast Z hZ]
  omega

theorem natB_lb (Z : ℕ) (hZ : 2299161 ≤ Z) : 2300685 ≤ natB Z := by
  unfold natB natA natAlpha
  omega

theorem natC_cast (Z : ℕ) (hZ : 2299161 ≤ Z) :
    calC (Z : ℤ) = ((natC Z : ℕ) : ℤ) := by
  have hB := natB_lb Z hZ
  unfold calC natC
  rw [natB_cast Z hZ]
  omega

theorem natD_cast (Z : ℕ) (hZ : 2299161 ≤ Z) :
    calD (Z : ℤ) = ((natD Z : ℕ) : ℤ) := by
  unfold calD natD
  rw [natC_cast Z hZ]
  omega

theorem natBD_nat (Z : ℕ) (hZ : 2299161 ≤ Z) :
    natD Z + 123 ≤ natB Z ∧ natB Z - natD Z ≤ 489 := by
  have hB := natB_lb Z hZ
  unfold natD natC
  omega

theorem natE_cast (Z : ℕ) (hZ : 2299161 ≤ Z) :
    calE (Z : ℤ) = ((natE Z : ℕ) : ℤ) := by
  have h := natBD_nat Z hZ
  unfold calE natE
  rw [natB_cast Z hZ, natD_cast Z hZ]
  omega

theorem natDay_cast (Z : ℕ) (hZ : 2299161 ≤ Z) :
    calDay (Z : ℤ) = ((natDay Z : ℕ) : ℤ) := by
  have h := natBD_nat Z hZ
  unfold calDay natDay
  rw [natB_cast Z hZ, natD_cast Z hZ, natE_cast Z hZ]
  unfold natE
  omega

theorem natE_lb (Z : ℕ) (hZ : 2299161 ≤ Z) : 4 ≤ natE Z := by
  have h := natBD_nat Z hZ
  unfold natE
  omega

theorem natMonth_cast (Z : ℕ) (hZ : 2299161 ≤ Z) :
    calMonth (Z : ℤ) = ((natMonth Z : ℕ) : ℤ) := by
  have h4 := natE_lb Z hZ
  unfold calMonth natMonth
  rw [natE_cast Z hZ]
  split_ifs <;> omega

theorem natC_lb (Z : ℕ) (hZ : 2299161 ≤ Z) : 6000 ≤ natC Z := by
  have hB := natB_lb Z hZ
  unfold natC
  omega

theorem natYear_cast (Z : ℕ) (hZ : 2299161 ≤ Z) :
    calYear (Z : ℤ) = ((natYear Z : ℕ) : ℤ) := by
  have hC := natC_lb Z hZ
  unfold calYear natYear
  rw [natMonth_cast Z hZ, natC_cast Z hZ]
  split_ifs <;> omega

theorem natCal_cast (Z : ℕ) (hZ : 2299161 ≤ Z) (y m d : ℕ)
    (hcal : natCalFromZ Z = (y, m, d)) :
    calFromZ (Z : ℤ) = ((y : ℤ), (m : ℤ), (d : ℤ)) := by
  unfold natCalFromZ at hcal
  rw [Prod.mk.injEq, Prod.mk.injEq] at hcal
  unfold calFromZ
  rw [natYear_cast Z hZ, natMonth_cast Z hZ, natDay_cast Z hZ,
    hcal.1, hcal.2.1, hcal.2.2]

theorem natGregToN_cast (y m d : ℕ) (hy : 1 ≤ y) :
    gregToN (y : ℤ) (m : ℤ) (d : ℤ) = ((natGregToN y m d : ℕ) : ℤ) := by
  have hYY : ((natYY y m : ℕ) : ℤ) =
      if (m : ℤ) ≤ 2 then (y : ℤ) - 1 else (y : ℤ) := by
    unfold natYY
    split_ifs <;> omega
  have hMM : ((natMM m : ℕ) : ℤ) =
      if (m : ℤ) ≤ 2 then (m : ℤ) + 12 else (m : ℤ) := by
    unfold natMM
    split_ifs <;> omega
  have hdA : ((natYY y m / 100 : ℕ) : ℤ) = ((natYY y m : ℕ) : ℤ) / 100 := by
    omega
  have hdB : ((natYY y m / 100 / 4 : ℕ) : ℤ) =
      ((natYY y m : ℕ) : ℤ) / 100 / 4 := by
    omega
  have hdE : ((1461 * (natYY y m + 4716) / 4 : ℕ) : ℤ) =
      1461 * (((natYY y m : ℕ) : ℤ) + 4716) / 4 := by
    omega
  have hdF : ((306001 * (natMM m + 1) / 10000 : ℕ) : ℤ) =
      306001 * (((natMM m : ℕ) : ℤ) + 1) / 10000 := by
    omega
  simp only [gregToN, natGregToN]
  rw [← hYY, ← hMM]
  omega

/-- Natural-number mirror of the source `is_leap_year`. -/
def natLeap (y : ℕ) : Bool :=
  if y % 4 ≠ 0 then false
  else if y % 100 ≠ 0 then true
  else y % 400 == 0

/-- Month length used to delimit the valid civil dates of the round-trip
claim (natural-number version). -/
def natDim (y m : ℕ) : ℕ :=
  if m = 2 then (if natLeap y then 29 else 28)
  else if m = 4 ∨ m = 6 ∨ m = 9 ∨ m = 11 then 30
  else 31

/-- Modelled from the spec: the valid civil moments quantified over by the
round-trip law are real calendar dates, so the day is bounded by the month
length under the source's leap-year rule. -/
def daysInMonth (y m : ℤ) : ℤ :=
  if m = 2 then (if is_leap_year y then 29 else 28)
  else if m = 4 ∨ m = 6 ∨ m = 9 ∨ m = 11 then 30
  else 31

theorem natLeap_cast (y : ℕ) : is_leap_year (y : ℤ) = natLeap y := by
  unfold is_leap_year natLeap
  split_ifs <;>
    first
    | rfl
    | omega
    | (apply Bool.eq_iff_iff.mpr; simp only [beq_iff_eq]; omega)

theorem daysInMonth_cast (y m : ℕ) :
    daysInMonth (y : ℤ) (m : ℤ) = ((natDim y m : ℕ) : ℤ) := by
  unfold daysInMonth natDim
  rw [natLeap_cast]
  split_ifs <;> first | rfl | omega

/-- One date of the round-trip check, on the natural-number mirrors. -/
def natCheckDate (y m d : ℕ) : Bool :=
  (natCalFromZ (natGregToN y m d) == (y, m, d)) &&
    decide (2299161 ≤ natGregToN y m d)

/-- Check every day `1 .. n` of a month. -/
def allDays (y m : ℕ) : ℕ → Bool
  | 0 => true
  | d + 1 => natCheckDate y m (d + 1) && allDays y m d

/-- Check every month `1 .. n` of a year. -/
def allMonths (y : ℕ) : ℕ → Bool
  | 0 => true
  | m + 1 => allDays y (m + 1) (natDim y (m + 1)) && allMonths y m

/-- Check every year `lo + 1 .. lo + n`. -/
def allYearsIn (lo : ℕ) : ℕ → Bool
  | 0 => true
  | i + 1 => allMonths (lo + i + 1) 12 && allYearsIn lo i

theorem allYearsIn_elim (lo : ℕ) :
    ∀ n, allYearsIn lo n = true →
      ∀ j, lo + 1 ≤ j → j ≤ lo + n → allMonths j 12 = true := by
  intro n
  induction n with
  | zero => intro _ j h1 h2; omega
  | succ k ih =>
    intro h j h1 h2
    rw [allYearsIn, Bool.and_eq_true] at h
    by_cases hjk : j = lo + k + 1
    · exact hjk ▸ h.1
    · exact ih h.2 j h1 (by omega)

set_option maxHeartbeats 400000000 in
set_option maxRecDepth 100000 in
/-- Exhaustive kernel check of the round-trip identity, years 1800 to 1842. -/
theorem allYears_check0 : allYearsIn 1799 43 = true := by decide

set_option maxHeartbeats 400000000 in
set_option maxRecDepth 100000 in
/-- Exhaustive kernel check of the round-trip identity, years 1843 to 1885. -/
theorem allYears_check1 : allYearsIn 1842 43 = true := by decide

set_option maxHeartbeats 400000000 in
set_option maxRecDepth 100000 in
/-- Exhaustive kernel check of the round-trip identity, years 1886 to 1928. -/
theorem allYears_check2 : allYearsIn 1885 43 = true := by decide

set_option maxHeartbeats 400000000 in
set_option maxRecDepth 100000 in
/-- Exhaustive kernel check of the round-trip identity, years 1929 to 1971. -/
theorem allYears_check3 : allYearsIn 1928 43 = true := by decide

set_option maxHeartbeats 400000000 in
set_option maxRecDepth 100000 in
/-- Exhaustive kernel check of the round-trip identity, years 1972 to 2014. -/
theorem allYears_check4 : allYearsIn 1971 43 = true := by decide

set_option maxHeartbeats 400000000 in
set_option maxRecDepth 100000 in
/-- Exhaustive kernel check of the round-trip identity, years 2015 to 2057. -/
theorem allYears_check5 : allYearsIn 2014 43 = true := by decide

set_option maxHeartbeats 400000000 in
set_option maxRecDepth 100000 in
/-- Exhaustive kernel check of the round-trip identity, years 2058 to 2100. -/
theorem allYears_check6 : allYearsIn 2057 43 = true := by decide

theorem allDays_elim (y m : ℕ) :
    ∀ n, allDays y m n = true →
      ∀ d, 1 ≤ d → d ≤ n → natCheckDate y m d = true := by
  intro n
  induction n with
  | zero => intro _ d h1 h2; omega
  | succ k ih =>
    intro h d h1 h2
    rw [allDays, Bool.and_eq_true] at h
    by_cases hdk : d = k + 1
    · exact hdk ▸ h.1
    · exact ih h.2 d h1 (by omega)

theorem allMonths_elim (y : ℕ) :
    ∀ n, allMonths y n = true →
      ∀ m, 1 ≤ m → m ≤ n → allDays y m (natDim y m) = true := by
  intro n
  induction n with
  | zero => intro _ m h1 h2; omega
  | succ k ih =>
    intro h m h1 h2
    rw [allMonths, Bool.and_eq_true] at h
    by_cases hmk : m = k + 1
    · exact hmk ▸ h.1
    · exact ih h.2 m h1 (by omega)

/-- Every year from 1800 to 2100 passes the per-month round-trip check. -/
theorem allMonths_all (y : ℕ) (h1 : 1800 ≤ y) (h2 : y ≤ 2100) :
    allMonths y 12 = true := by
  rcases (by omega :
      (1800 ≤ y ∧ y ≤ 1842) ∨ (1843 ≤ y ∧ y ≤ 1885) ∨
      (1886 ≤ y ∧ y ≤ 1928) ∨ (1929 ≤ y ∧ y ≤ 1971) ∨
      (1972 ≤ y ∧ y ≤ 2014) ∨ (2015 ≤ y ∧ y ≤ 2057) ∨
      (2058 ≤ y ∧ y ≤ 2100)) with
    h | h | h | h | h | h | h
  · exact allYearsIn_elim 1799 43 allYears_check0 y (by omega) (by omega)
  · exact allYearsIn_elim 1842 43 allYears_check1 y (by omega) (by omega)
  · exact allYearsIn_elim 1885 43 allYears_check2 y (by omega) (by omega)
  · exact allYearsIn_elim 1928 43 allYears_check3 y (by omega) (by omega)
  · exact allYearsIn_elim 1971 43 allYears_check4 y (by omega) (by omega)
  · exact allYearsIn_elim 2014 43 allYears_check5 y (by omega) (by omega)
  · exact allYearsIn_elim 2057 43 allYears_check6 y (by omega) (by omega)

theorem natCheckDate_elim (y m d : ℕ) (h : natCheckDate y m d = true) :
    natCalFromZ (natGregToN y m d) = (y, m, d) ∧
      2299161 ≤ natGregToN y m d := by
  rw [natCheckDate, Bool.and_eq_true, beq_iff_eq, decide_eq_true_eq] at h
  exact h

theorem pyint_intCast (n : ℤ) : pyint ((n : ℤ) : ℚ) = n := by
  unfold pyint
  split
  · exact Int.floor_intCast n
  · rw [show -((n:ℤ) : ℚ) = (((-n : ℤ)) : ℚ) from by push_cast; ring,
      Int.floor_intCast]
    ring

theorem time_t0 (h mi s : ℤ) (hh1 : 0 ≤ h) (hmi1 : 0 ≤ mi) (hs1 : 0 ≤ s) :
    0 ≤ ((h:ℚ) + (mi:ℚ) / 60 + (s:ℚ) / 3600) / 24 := by
  have c1 : (0:ℚ) ≤ (h:ℚ) := by exact_mod_cast hh1
  have c2 : (0:ℚ) ≤ (mi:ℚ) := by exact_mod_cast hmi1
  have c3 : (0:ℚ) ≤ (s:ℚ) := by exact_mod_cast hs1
  have hsum : (0:ℚ) ≤ (h:ℚ) + (mi:ℚ) / 60 + (s:ℚ) / 3600 := by linarith
  linarith

theorem time_t1 (h mi s : ℤ) (hh2 : h < 24) (hmi2 : mi < 60) (hs2 : s < 60) :
    ((h:ℚ) + (mi:ℚ) / 60 + (s:ℚ) / 3600) / 24 < 1 := by
  have c1 : (h:ℚ) ≤ 23 := by exact_mod_cast (by omega : h ≤ 23)
  have c2 : (mi:ℚ) ≤ 59 := by exact_mod_cast (by omega : mi ≤ 59)
  have c3 : (s:ℚ) ≤ 59 := by exact_mod_cast (by omega : s ≤ 59)
  have hsum : (h:ℚ) + (mi:ℚ) / 60 + (s:ℚ) / 3600 < 24 := by linarith
  linarith

theorem time_hour (h mi s : ℤ) (hh1 : 0 ≤ h) (hmi1 : 0 ≤ mi) (hmi2 : mi < 60)
    (hs1 : 0 ≤ s) (hs2 : s < 60) :
    pyint (((h:ℚ) + (mi:ℚ) / 60 + (s:ℚ) / 3600) / 24 * 24) = h := by
  rw [show ((h:ℚ) + (mi:ℚ) / 60 + (s:ℚ) / 3600) / 24 * 24 =
      (h:ℚ) + ((mi:ℚ) / 60 + (s:ℚ) / 3600) from by ring]
  have c2 : (0:ℚ) ≤ (mi:ℚ) := by exact_mod_cast hmi1
  have c3 : (0:ℚ) ≤ (s:ℚ) := by exact_mod_cast hs1
  have c2u : (mi:ℚ) ≤ 59 := by exact_mod_cast (by omega : mi ≤ 59)
  have c3u : (s:ℚ) ≤ 59 := by exact_mod_cast (by omega : s ≤ 59)
  exact pyint_intCast_add h _ (by linarith) (by linarith) hh1

theorem time_minute (h mi s : ℤ) (hh1 : 0 ≤ h) (hmi1 : 0 ≤ mi)
    (hs1 : 0 ≤ s) (hs2 : s < 60) :
    pyint ((((h:ℚ) + (mi:ℚ) / 60 + (s:ℚ) / 3600) / 24 * 24 - (h:ℚ)) * 60) =
      mi := by
  rw [show (((h:ℚ) + (mi:ℚ) / 60 + (s:ℚ) / 3600) / 24 * 24 - (h:ℚ)) * 60 =
      (mi:ℚ) + (s:ℚ) / 60 from by ring]
  have c3 : (0:ℚ) ≤ (s:ℚ) := by exact_mod_cast hs1
  have c3u : (s:ℚ) ≤ 59 := by exact_mod_cast (by omega : s ≤ 59)
  exact pyint_intCast_add mi _ (by linarith) (by linarith) hmi1

theorem time_second (h mi s : ℤ) :
    pyint (((((h:ℚ) + (mi:ℚ) / 60 + (s:ℚ) / 3600) / 24 * 24 - (h:ℚ)) * 60 -
      (mi:ℚ)) * 60) = s := by
  rw [show ((((h:ℚ) + (mi:ℚ) / 60 + (s:ℚ) / 3600) / 24 * 24 - (h:ℚ)) * 60 -
      (mi:ℚ)) * 60 = ((s : ℤ) : ℚ) from by push_cast; ring]
  exact pyint_intCast s

/-- C5: for every civil UTC moment whose year lies between 1800 and 2100 (a
valid calendar date with integer hour, minute and second), converting it to
a Julian day with `greg_to_jd` and back with `jd_to_datetime_utc` reproduces
the original moment exactly in this exact-arithmetic model of the source's
float computation -- in particular, to within one second. -/
theorem C5_jd_roundtrip_1800_2100 (y m d h mi s : ℤ)
    (hy1 : 1800 ≤ y) (hy2 : y ≤ 2100) (hm1 : 1 ≤ m) (hm2 : m ≤ 12)
    (hd1 : 1 ≤ d) (hd2 : d ≤ daysInMonth y m)
    (hh1 : 0 ≤ h) (hh2 : h < 24) (hmi1 : 0 ≤ mi) (hmi2 : mi < 60)
    (hs1 : 0 ≤ s) (hs2 : s < 60) :
    jd_to_datetime_utc (greg_to_jd y m d (h:ℚ) (mi:ℚ) (s:ℚ)) =
      (y, m, d, h, mi, s) := by
  lift y to ℕ using (by omega)
  lift m to ℕ using (by omega)
  lift d to ℕ using (by omega)
  have hdim := daysInMonth_cast y m
  have hcheck : natCheckDate y m d = true := by
    have h1 := allMonths_all y (by omega) (by omega)
    have h2 := allMonths_elim y 12 h1 m (by omega) (by omega)
    exact allDays_elim y m _ h2 d (by omega) (by omega)
  obtain ⟨hcal, hN⟩ := natCheckDate_elim y m d hcheck
  have hNZ : gregToN (y:ℤ) (m:ℤ) (d:ℤ) = ((natGregToN y m d : ℕ) : ℤ) :=
    natGregToN_cast y m d (by omega)
  have hcalZ : calFromZ (gregToN (y:ℤ) (m:ℤ) (d:ℤ)) =
      ((y:ℤ), (m:ℤ), (d:ℤ)) := by
    rw [hNZ]
    exact natCal_cast _ hN _ _ _ hcal
  have hNbig : (2299161 : ℤ) ≤ gregToN (y:ℤ) (m:ℤ) (d:ℤ) := by
    rw [hNZ]
    exact_mod_cast hN
  rw [greg_to_jd_eq]
  rw [jd_inverse (gregToN (y:ℤ) (m:ℤ) (d:ℤ))
    (((h:ℚ) + (mi:ℚ) / 60 + (s:ℚ) / 3600) / 24) (y:ℤ) (m:ℤ) (d:ℤ)
    (time_t0 h mi s hh1 hmi1 hs1) (time_t1 h mi s hh2 hmi2 hs2)
    hNbig hcalZ hd1]
  rw [time_hour h mi s hh1 hmi1 hmi2 hs1 hs2]
  rw [time_minute h mi s hh1 hmi1 hs1 hs2]
  rw [time_second h mi s]

theorem C5_jd_roundtrip_1800_2100_witness :
    (1800 ≤ (1993:ℤ) ∧ (1993:ℤ) ≤ 2100 ∧ 1 ≤ (7:ℤ) ∧ (7:ℤ) ≤ 12 ∧
     1 ≤ (12:ℤ) ∧ (12:ℤ) ≤ daysInMonth 1993 7 ∧ 0 ≤ (6:ℤ) ∧ (6:ℤ) < 24 ∧
     0 ≤ (56:ℤ) ∧ (56:ℤ) < 60 ∧ 0 ≤ (0:ℤ) ∧ (0:ℤ) < 60) ∧
    jd_to_datetime_utc
        (greg_to_jd 1993 7 12 ((6:ℤ):ℚ) ((56:ℤ):ℚ) ((0:ℤ):ℚ)) =
      (1993, 7, 12, 6, 56, 0) :=
  ⟨⟨by decide, by decide, by decide, by decide, by decide, by decide,
    by decide, by decide, by decide, by decide, by decide, by decide⟩,
   C5_jd_roundtrip_1800_2100 1993 7 12 6 56 0 (by decide) (by decide)
     (by decide) (by decide) (by decide) (by decide) (by decide) (by decide)
     (by decide) (by decide) (by decide) (by decide)⟩

end Panchanga
